import Mathlib

/-!
Verification of the Kush clang toolchain driver
(clang/lib/Driver/ToolChains/Kush.cpp): a shallow embedding of the
link-command builder (kush::Linker::ConstructJob), the toolchain
constructor's library search paths (Kush::Kush), the system include
resolution (Kush::AddClangSystemIncludeArgs), the runtime library
selector (Kush::GetRuntimeLibType) and the C++ standard library
argument emitter (Kush::AddCXXStdlibLibArgs), with theorems about the
emitted linker argument sequences.

External collaborators (ToolChain::GetFilePath, addLTOOptions,
AddRunTimeLibs, the platform PIE default, the configured C++ standard
library) are modelled as parameters of the toolchain configuration;
the driver logic itself is transcribed from the source.
-/

namespace KushToolchain

/-- Link-time-optimization mode: disabled, full LTO, or ThinLTO
(models Driver::isUsingLTO / Driver::getLTOMode). -/
inductive LTOMode
  | off
  | full
  | thin
  deriving DecidableEq

/-- Whether the LTO mode is ThinLTO (models D.getLTOMode() == LTOK_Thin). -/
def LTOMode.isThin : LTOMode → Bool
  | LTOMode.thin => true
  | _ => false

/-- The C++ standard library kind (models ToolChain::CXXStdlibType);
only libc++ is supported by this toolchain. -/
inductive CXXStdlibType
  | libcxx
  | libstdcxx
  deriving DecidableEq

/-- The compiler runtime library kind (models ToolChain::RuntimeLibType). -/
inductive RuntimeLibType
  | compilerRT
  | libgcc
  deriving DecidableEq

/-- Immutable per-process toolchain description.  `sysroot` and
`resourceDir` come from the Driver; `getFilePath`, `ltoOptions` and
`runtimeLibs` stand for the external collaborators
ToolChain::GetFilePath, addLTOOptions and AddRunTimeLibs, which
resolve names outside of the code under verification. -/
structure ToolchainConfig where
  sysroot : String
  resourceDir : String
  pieDefault : Bool
  getFilePath : String → String
  runtimeLibs : List String
  ltoOptions : Bool → String → List String
  cxxStdlibType : CXXStdlibType

/-- Normalized per-job link options, one field per driver flag read by
kush::Linker::ConstructJob. -/
structure LinkSpec where
  static : Bool
  shared : Bool
  pie : Bool
  rdynamicExport : Bool
  stripSymbols : Bool
  noStdlib : Bool
  noStartFiles : Bool
  noDefaultLibs : Bool
  noLibc : Bool
  staticLibstdcxxOnly : Bool
  isCxx : Bool
  shouldLinkCXXStdlib : Bool
  ltoMode : LTOMode
  extraLibraryPaths : List String
  extraUndefinedSymbols : List String
  inputs : List String
  outputPath : String

/-- Library search paths seeded at construction time by Kush::Kush:
sysroot/System/Libraries then sysroot/Local/Libraries, each guarded by
the sysroot being configured. -/
def ToolchainConfig.filePaths (tc : ToolchainConfig) : List String :=
  (if tc.sysroot = "" then [] else [tc.sysroot ++ "/System/Libraries"])
  ++ (if tc.sysroot = "" then [] else [tc.sysroot ++ "/Local/Libraries"])

/-- Baseline hardening: relro is unsupported, so it is always disabled. -/
def hardeningArgs : List String := ["-znorelro"]

/-- The sysroot flag, emitted when the driver has a sysroot. -/
def sysrootArgs (tc : ToolchainConfig) : List String :=
  if tc.sysroot = "" then [] else ["--sysroot=" ++ tc.sysroot]

/-- IsPIE as computed by ConstructJob: not shared, and PIE requested or
the platform default is PIE. -/
def isPIE (tc : ToolchainConfig) (s : LinkSpec) : Bool :=
  !s.shared && (s.pie || tc.pieDefault)

/-- The PIE flag, emitted when IsPIE holds. -/
def pieArgs (tc : ToolchainConfig) (s : LinkSpec) : List String :=
  if isPIE tc s then ["-pie"] else []

/-- The strip flag, emitted when symbol stripping is requested. -/
def stripArgs (s : LinkSpec) : List String :=
  if s.stripSymbols then ["-s"] else []

/-- The linking-mode group: static linking emits only -Bstatic; dynamic
linking emits the export-dynamic flag when requested, then either the
shared-object flag or the dynamic-linker pair, then the new-dtags flag. -/
def modeArgs (s : LinkSpec) : List String :=
  if s.static then ["-Bstatic"]
  else
    (if s.rdynamicExport then ["-export-dynamic"] else [])
    ++ (if s.shared then ["-Bshareable"] else ["-dynamic-linker", "/sbin/ldyldo"])
    ++ ["--enable-new-dtags"]

/-- The output flag pair, emitted unconditionally. -/
def outputArgs (s : LinkSpec) : List String :=
  ["-o", s.outputPath]

/-- The startup object selected by the three-way rule in ConstructJob:
static executables get crt0T.o, shared objects and PIEs get crt0S.o,
regular executables get crt0.o. -/
def startupObject (tc : ToolchainConfig) (s : LinkSpec) : String :=
  if s.static then tc.getFilePath "crt0T.o"
  else if s.shared || isPIE tc s then tc.getFilePath "crt0S.o"
  else tc.getFilePath "crt0.o"

/-- The C-runtime startup objects: skipped when nostdlib or nostartfiles
is set; otherwise the selected entry object, plus crti.o for static
executables. -/
def startupArgs (tc : ToolchainConfig) (s : LinkSpec) : List String :=
  if s.noStdlib || s.noStartFiles then []
  else
    [startupObject tc s]
    ++ (if s.static then [tc.getFilePath "crti.o"] else [])

/-- User-supplied library search paths (Args.AddAllArgs with OPT_L),
rendered in the joined form. -/
def userLibPathArgs (s : LinkSpec) : List String :=
  s.extraLibraryPaths.map (fun p => "-L" ++ p)

/-- User-supplied forced-undefined symbols (Args.AddAllArgs with OPT_u),
rendered in the joined form. -/
def userUndefArgs (s : LinkSpec) : List String :=
  s.extraUndefinedSymbols.map (fun u => "-u" ++ u)

/-- ToolChain::AddFilePathLibArgs: the toolchain's file paths rendered
as library search directives. -/
def filePathLibArgs (tc : ToolchainConfig) : List String :=
  (ToolchainConfig.filePaths tc).map (fun p => "-L" ++ p)

/-- The LTO options that are emitted when LTO is enabled and at least
one input exists (the arguments addLTOOptions contributes, anchored on
the first input). -/
def ltoArgs (tc : ToolchainConfig) (s : LinkSpec) : List String :=
  match s.ltoMode, s.inputs with
  | LTOMode.off, _ => []
  | _, [] => []
  | m, i :: _ => tc.ltoOptions m.isThin i

/-- The LTO stage of ConstructJob: when LTO is enabled, the assertion
that at least one input exists must hold; with no inputs, synthesis
aborts (modelled as none). -/
def ltoArgsOpt (tc : ToolchainConfig) (s : LinkSpec) : Option (List String) :=
  match s.ltoMode, s.inputs with
  | LTOMode.off, _ => some []
  | _, [] => none
  | m, i :: _ => some (tc.ltoOptions m.isThin i)

/-- Kush::AddCXXStdlibLibArgs: for libc++, emit -lc++abi then -lc++,
then -lunwind unless linking statically; any other standard library is
llvm_unreachable (modelled as none). -/
def addCXXStdlibLibArgs : CXXStdlibType → Bool → Option (List String)
  | CXXStdlibType.libcxx, isStatic =>
      some (["-lc++abi", "-lc++"] ++ (if isStatic then [] else ["-lunwind"]))
  | CXXStdlibType.libstdcxx, _ => none

/-- The push-state scope wrapped around the C++ standard library: open
the scope as-needed, force static mode when only the standard library
is linked statically, the standard library arguments, restore dynamic
mode under that same condition, then the math library and the close of
the scope. -/
def cxxStdlibScope (stdlib : List String) (only : Bool) : List String :=
  ["--push-state", "--as-needed"]
  ++ (if only then ["-Bstatic"] else [])
  ++ stdlib
  ++ (if only then ["-Bdynamic"] else [])
  ++ ["-lopenlibm", "--pop-state"]

/-- The C++ standard library portion of the default-libraries stage:
present only for C++ links that should link a standard library. -/
def cxxPartOpt (tc : ToolchainConfig) (s : LinkSpec) : Option (List String) :=
  if s.isCxx && s.shouldLinkCXXStdlib then
    Option.map
      (fun l => cxxStdlibScope l (s.staticLibstdcxxOnly && !s.static))
      (addCXXStdlibLibArgs tc.cxxStdlibType s.static)
  else some []

/-- The default-libraries stage: skipped when nostdlib or nodefaultlibs
is set; otherwise -Bstatic for static links, the C++ standard library
scope, the runtime libraries, and -lc unless nolibc. -/
def defaultLibsOpt (tc : ToolchainConfig) (s : LinkSpec) : Option (List String) :=
  if s.noStdlib || s.noDefaultLibs then some []
  else
    match cxxPartOpt tc s with
    | none => none
    | some cxxPart =>
        some ((if s.static then ["-Bstatic"] else [])
              ++ cxxPart ++ tc.runtimeLibs
              ++ (if s.noLibc then [] else ["-lc"]))

/-- kush::Linker::ConstructJob: the ordered argument sequence handed to
the external linker, or none when an internal invariant fails (LTO with
no inputs, or an unsupported C++ standard library). -/
def constructJob (tc : ToolchainConfig) (s : LinkSpec) : Option (List String) :=
  match ltoArgsOpt tc s, defaultLibsOpt tc s with
  | some lto, some defaults =>
      some (hardeningArgs ++ sysrootArgs tc ++ pieArgs tc s ++ stripArgs s
            ++ modeArgs s ++ outputArgs s ++ startupArgs tc s
            ++ userLibPathArgs s ++ userUndefArgs s ++ filePathLibArgs tc
            ++ lto ++ s.inputs ++ defaults)
  | _, _ => none

/-- Kush::AddClangSystemIncludeArgs: nothing under nostdinc; the
built-in resource include directory unless nobuiltininc; nothing
further under nostdlibinc; otherwise the sysroot System and Local
include tiers when a sysroot is configured. -/
def addClangSystemIncludeArgs (tc : ToolchainConfig)
    (nostdinc nobuiltininc nostdlibinc : Bool) : List String :=
  if nostdinc then []
  else
    (if nobuiltininc then [] else [tc.resourceDir ++ "/include"])
    ++ (if nostdlibinc then []
        else if tc.sysroot = "" then []
        else [tc.sysroot ++ "/System/Includes", tc.sysroot ++ "/Local/Includes"])

/-- Kush::GetRuntimeLibType: always returns compiler-rt; a supplied
rtlib name other than compiler-rt produces a diagnostic (second
component) but the result is unchanged. -/
def getRuntimeLibType (rtlibArg : Option String) : RuntimeLibType × List String :=
  match rtlibArg with
  | Option.some v =>
      if v ≠ "compiler-rt" then
        (RuntimeLibType.compilerRT, ["invalid runtime library name: " ++ v])
      else (RuntimeLibType.compilerRT, [])
  | Option.none => (RuntimeLibType.compilerRT, [])

/-- The static/dynamic linking mode after processing a list of
arguments, starting from mode `m` (true = static): -Bstatic sets it,
-Bdynamic clears it, everything else leaves it. -/
def linkModeAfter (m : Bool) (args : List String) : Bool :=
  args.foldl
    (fun acc a => if a = "-Bstatic" then true else if a = "-Bdynamic" then false else acc)
    m

/-- A concrete toolchain configuration used to exercise the theorems on
closed inputs. -/
def tcW : ToolchainConfig :=
  { sysroot := "/sr", resourceDir := "/res", pieDefault := false,
    getFilePath := fun n => n, runtimeLibs := ["-lclang_rt"],
    ltoOptions := fun thin i => (if thin then ["--thinlto"] else ["--lto"]) ++ [i],
    cxxStdlibType := CXXStdlibType.libcxx }

/-- A concrete static link job. -/
def sC1 : LinkSpec :=
  { static := true, shared := false, pie := false, rdynamicExport := true,
    stripSymbols := false, noStdlib := false, noStartFiles := false,
    noDefaultLibs := false, noLibc := false, staticLibstdcxxOnly := false,
    isCxx := true, shouldLinkCXXStdlib := true, ltoMode := LTOMode.off,
    extraLibraryPaths := ["u1"], extraUndefinedSymbols := ["sym"],
    inputs := ["a.o"], outputPath := "out" }

def cmdC1 : List String := (constructJob tcW sC1).getD []

/-- A concrete shared-object link job, with the PIE flag also set. -/
def sC2 : LinkSpec :=
  { sC1 with static := false, shared := true, pie := true }

def cmdC2 : List String := (constructJob tcW sC2).getD []

/-- A concrete dynamic PIE link job. -/
def sC3 : LinkSpec :=
  { sC1 with static := false, pie := true }

def cmdC3 : List String := (constructJob tcW sC3).getD []

/-- A concrete dynamic C++ link job with only the standard library
linked statically. -/
def sC4 : LinkSpec :=
  { sC1 with static := false, staticLibstdcxxOnly := true }

def cmdC4 : List String := (constructJob tcW sC4).getD []

/-- A concrete job with several user search paths and forced-undefined
symbols. -/
def sC5 : LinkSpec :=
  { sC1 with
    static := false
    extraLibraryPaths := ["u1", "u2"]
    extraUndefinedSymbols := ["s1", "s2"] }

def cmdC5 : List String := (constructJob tcW sC5).getD []

/-- A concrete job with one user search path, used to compare the
position of user paths against the toolchain tiers. -/
def sC6 : LinkSpec :=
  { sC1 with static := false, extraLibraryPaths := ["u"] }

def cmdC6 : List String := (constructJob tcW sC6).getD []

/-- A ThinLTO job with no inputs (violates the builder precondition). -/
def sC9e : LinkSpec :=
  { sC1 with static := false, ltoMode := LTOMode.thin, inputs := [] }

/-- A ThinLTO job with one input. -/
def sC9n : LinkSpec :=
  { sC1 with static := false, ltoMode := LTOMode.thin, inputs := ["a.o"] }

def cmdC9 : List String := (constructJob tcW sC9n).getD []

/-- A concrete non-static C++ link job. -/
def sC10 : LinkSpec :=
  { sC1 with static := false }

def cmdC10 : List String := (constructJob tcW sC10).getD []

/-- Freshness of a reserved linker flag with respect to the strings the
builder receives from outside (input paths, the output path, the
runtime libraries, the resolved startup objects, the LTO options): a
well-formed job never names an artifact after a linker flag. -/
def flagFresh (t : String) (tc : ToolchainConfig) (s : LinkSpec) : Prop :=
  t ∉ s.inputs ∧ s.outputPath ≠ t ∧ t ∉ tc.runtimeLibs ∧
  tc.getFilePath "crt0T.o" ≠ t ∧ tc.getFilePath "crt0S.o" ≠ t ∧
  tc.getFilePath "crt0.o" ≠ t ∧ tc.getFilePath "crti.o" ≠ t ∧
  t ∉ ltoArgs tc s

instance flagFreshDecidable (t : String) (tc : ToolchainConfig) (s : LinkSpec) :
    Decidable (flagFresh t tc s) := by
  unfold flagFresh
  infer_instance

theorem strDataAppend (a b : String) : (a ++ b).data = a.data ++ b.data := rfl

/-- Two strings differ if they differ at a character position that lies
inside the left part of an append. -/
theorem appendNe (a p t : String) (i : Nat) (hi : i < a.data.length)
    (h : a.data[i]? ≠ t.data[i]?) : a ++ p ≠ t := by
  intro e
  apply h
  have h2 : (a ++ p).data[i]? = t.data[i]? := by rw [e]
  rw [strDataAppend, List.getElem?_append_left hi] at h2
  exact h2

theorem not_mem_map_of_ne (a t : String) (l : List String)
    (h : ∀ p, a ++ p ≠ t) : t ∉ l.map (fun p => a ++ p) := by
  intro hm
  rcases List.mem_map.mp hm with ⟨p, _, hp⟩
  exact h p hp

theorem ltoArgsOpt_some (tc : ToolchainConfig) (s : LinkSpec) (l : List String)
    (h : ltoArgsOpt tc s = some l) : l = ltoArgs tc s := by
  unfold ltoArgsOpt ltoArgs at *
  cases hm : s.ltoMode <;> cases hi : s.inputs <;> rw [hm, hi] at h <;> simp_all

/-- Shape of a successfully synthesized command: the thirteen emission
stages in their required order. -/
theorem constructJob_some (tc : ToolchainConfig) (s : LinkSpec) (cmd : List String)
    (h : constructJob tc s = some cmd) :
    ∃ defaults, defaultLibsOpt tc s = some defaults ∧
      cmd = hardeningArgs ++ sysrootArgs tc ++ pieArgs tc s ++ stripArgs s
            ++ modeArgs s ++ outputArgs s ++ startupArgs tc s
            ++ userLibPathArgs s ++ userUndefArgs s ++ filePathLibArgs tc
            ++ ltoArgs tc s ++ s.inputs ++ defaults := by
  unfold constructJob at h
  cases hl : ltoArgsOpt tc s with
  | none => rw [hl] at h; simp at h
  | some lto =>
      cases hd : defaultLibsOpt tc s with
      | none => rw [hl, hd] at h; simp at h
      | some defaults =>
          rw [hl, hd] at h
          simp at h
          refine ⟨defaults, rfl, ?_⟩
          rw [← ltoArgsOpt_some tc s lto hl]
          simpa [List.append_assoc] using h.symm

theorem defaultLibsOpt_skip (tc : ToolchainConfig) (s : LinkSpec)
    (h : (s.noStdlib || s.noDefaultLibs) = true) : defaultLibsOpt tc s = some [] := by
  unfold defaultLibsOpt
  simp [h]

theorem defaultLibsOpt_full (tc : ToolchainConfig) (s : LinkSpec) (d : List String)
    (h : defaultLibsOpt tc s = some d) (hn : (s.noStdlib || s.noDefaultLibs) = false) :
    ∃ cxxPart, cxxPartOpt tc s = some cxxPart ∧
      d = (if s.static then ["-Bstatic"] else []) ++ cxxPart ++ tc.runtimeLibs
          ++ (if s.noLibc then [] else ["-lc"]) := by
  unfold defaultLibsOpt at h
  rw [hn] at h
  simp only [Bool.false_eq_true, if_false] at h
  cases hc : cxxPartOpt tc s with
  | none => rw [hc] at h; simp at h
  | some c =>
      rw [hc] at h
      simp at h
      exact ⟨c, rfl, by simpa [List.append_assoc] using h.symm⟩

theorem addCXXStdlibLibArgs_some (ty : CXXStdlibType) (st : Bool) (l : List String)
    (h : addCXXStdlibLibArgs ty st = some l) :
    ty = CXXStdlibType.libcxx ∧
      l = ["-lc++abi", "-lc++"] ++ (if st then [] else ["-lunwind"]) := by
  cases ty with
  | libcxx => unfold addCXXStdlibLibArgs at h; simp at h; exact ⟨rfl, h.symm⟩
  | libstdcxx => unfold addCXXStdlibLibArgs at h; simp at h

theorem cxxPartOpt_cxx (tc : ToolchainConfig) (s : LinkSpec) (c : List String)
    (h : cxxPartOpt tc s = some c) (hc : (s.isCxx && s.shouldLinkCXXStdlib) = true) :
    ∃ stdlib, addCXXStdlibLibArgs tc.cxxStdlibType s.static = some stdlib ∧
      c = cxxStdlibScope stdlib (s.staticLibstdcxxOnly && !s.static) := by
  unfold cxxPartOpt at h
  rw [hc] at h
  simp only [if_true] at h
  cases ha : addCXXStdlibLibArgs tc.cxxStdlibType s.static with
  | none => rw [ha] at h; simp at h
  | some stdlib => rw [ha] at h; simp at h; exact ⟨stdlib, rfl, h.symm⟩

theorem cxxPartOpt_notcxx (tc : ToolchainConfig) (s : LinkSpec)
    (hc : (s.isCxx && s.shouldLinkCXXStdlib) = false) : cxxPartOpt tc s = some [] := by
  unfold cxxPartOpt
  rw [hc]
  simp

theorem not_mem_if_list (c : Prop) [Decidable c] (l₁ l₂ : List String) (t : String)
    (h₁ : t ∉ l₁) (h₂ : t ∉ l₂) : t ∉ (if c then l₁ else l₂) := by
  split <;> assumption

theorem not_mem_defaultLibs (tc : ToolchainConfig) (s : LinkSpec) (d : List String)
    (t : String) (h : defaultLibsOpt tc s = some d) (h₁ : t ∉ tc.runtimeLibs)
    (h₂ : t ∉ (["-Bstatic", "--push-state", "--as-needed", "-Bdynamic", "-lopenlibm",
                "--pop-state", "-lc", "-lc++abi", "-lc++", "-lunwind"] : List String)) :
    t ∉ d := by
  simp only [List.mem_cons, List.not_mem_nil, not_or] at h₂
  obtain ⟨n1, n2, n3, n4, n5, n6, n7, n8, n9, n10, -⟩ := h₂
  cases hn : (s.noStdlib || s.noDefaultLibs) with
  | true =>
      rw [defaultLibsOpt_skip tc s hn] at h
      simp at h
      subst h
      simp
  | false =>
      obtain ⟨c, hc, rfl⟩ := defaultLibsOpt_full tc s d h hn
      cases hx : (s.isCxx && s.shouldLinkCXXStdlib) with
      | false =>
          rw [cxxPartOpt_notcxx tc s hx] at hc
          simp at hc
          subst hc
          simp only [List.mem_append, List.mem_cons, List.not_mem_nil, not_or]
          split_ifs <;> simp_all
      | true =>
          obtain ⟨stdlib, ha, rfl⟩ := cxxPartOpt_cxx tc s c hc hx
          obtain ⟨-, rfl⟩ := addCXXStdlibLibArgs_some _ _ _ ha
          simp only [cxxStdlibScope, List.mem_append, List.mem_cons, List.not_mem_nil,
            not_or]
          split_ifs <;> simp_all

theorem not_mem_constructJob (tc : ToolchainConfig) (s : LinkSpec) (cmd : List String)
    (t : String) (h : constructJob tc s = some cmd)
    (h₁ : t ∉ hardeningArgs) (h₂ : t ∉ sysrootArgs tc) (h₃ : t ∉ pieArgs tc s)
    (h₄ : t ∉ stripArgs s) (h₅ : t ∉ modeArgs s) (h₆ : t ∉ outputArgs s)
    (h₇ : t ∉ startupArgs tc s) (h₈ : t ∉ userLibPathArgs s) (h₉ : t ∉ userUndefArgs s)
    (h₁₀ : t ∉ filePathLibArgs tc) (h₁₁ : t ∉ ltoArgs tc s) (h₁₂ : t ∉ s.inputs)
    (h₁₃ : ∀ d, defaultLibsOpt tc s = some d → t ∉ d) : t ∉ cmd := by
  obtain ⟨d, hd, rfl⟩ := constructJob_some tc s cmd h
  have h₁₃' : t ∉ d := h₁₃ d hd
  repeat' apply List.not_mem_append
  all_goals assumption

theorem not_mem_sysrootArgs (tc : ToolchainConfig) (t : String)
    (h : ∀ x, "--sysroot=" ++ x ≠ t) : t ∉ sysrootArgs tc := by
  unfold sysrootArgs
  split
  · simp
  · simp only [List.mem_singleton]
    exact fun e => h tc.sysroot e.symm

theorem not_mem_pieArgs (tc : ToolchainConfig) (s : LinkSpec) (t : String)
    (h : t ≠ "-pie") : t ∉ pieArgs tc s := by
  unfold pieArgs
  split <;> simp [h]

theorem not_mem_stripArgs (s : LinkSpec) (t : String) (h : t ≠ "-s") :
    t ∉ stripArgs s := by
  unfold stripArgs
  split <;> simp [h]

theorem not_mem_outputArgs (s : LinkSpec) (t : String) (h₁ : t ≠ "-o")
    (h₂ : s.outputPath ≠ t) : t ∉ outputArgs s := by
  unfold outputArgs
  simp [h₁, Ne.symm h₂]

theorem not_mem_startupArgs (tc : ToolchainConfig) (s : LinkSpec) (t : String)
    (hT : tc.getFilePath "crt0T.o" ≠ t) (hS : tc.getFilePath "crt0S.o" ≠ t)
    (h0 : tc.getFilePath "crt0.o" ≠ t) (hi : tc.getFilePath "crti.o" ≠ t) :
    t ∉ startupArgs tc s := by
  unfold startupArgs startupObject
  split_ifs <;> simp [Ne.symm hT, Ne.symm hS, Ne.symm h0, Ne.symm hi]

theorem modeArgs_static (s : LinkSpec) (h : s.static = true) :
    modeArgs s = ["-Bstatic"] := by
  unfold modeArgs
  rw [h]
  simp

theorem startupArgs_static (tc : ToolchainConfig) (s : LinkSpec) (h : s.static = true)
    (h₁ : s.noStdlib = false) (h₂ : s.noStartFiles = false) :
    startupArgs tc s = [tc.getFilePath "crt0T.o", tc.getFilePath "crti.o"] := by
  unfold startupArgs startupObject
  rw [h, h₁, h₂]
  simp

/-- A reserved flag that is fresh for the job, is not any of the fixed
emitted flags, and does not collide with the rendered search-path or
undefined-symbol forms, does not occur in the synthesized command
(specialization of not_mem_constructJob). -/
theorem not_mem_cmd_of_fresh (tc : ToolchainConfig) (s : LinkSpec) (cmd : List String)
    (t : String) (h : constructJob tc s = some cmd) (f : flagFresh t tc s)
    (h₂ : t ∉ sysrootArgs tc) (h₃ : t ∉ pieArgs tc s) (h₄ : t ∉ stripArgs s)
    (h₅ : t ∉ modeArgs s) (h₁ : t ≠ "-znorelro") (ho : t ≠ "-o")
    (hL : ∀ p, "-L" ++ p ≠ t) (hu : ∀ p, "-u" ++ p ≠ t)
    (hdl : t ∉ (["-Bstatic", "--push-state", "--as-needed", "-Bdynamic", "-lopenlibm",
                 "--pop-state", "-lc", "-lc++abi", "-lc++", "-lunwind"] : List String)) :
    t ∉ cmd := by
  obtain ⟨fin, fout, frt, fT, fS, f0, fi, flto⟩ := f
  exact not_mem_constructJob tc s cmd t h (by simp [hardeningArgs, h₁]) h₂ h₃ h₄ h₅
    (not_mem_outputArgs s t ho fout)
    (not_mem_startupArgs tc s t fT fS f0 fi)
    (not_mem_map_of_ne _ _ _ hL) (not_mem_map_of_ne _ _ _ hu)
    (not_mem_map_of_ne _ _ _ hL) flto fin
    (fun d hd => not_mem_defaultLibs tc s d t hd frt hdl)

theorem mem_constructJob_of_mem_startup (tc : ToolchainConfig) (s : LinkSpec)
    (cmd : List String) (t : String) (h : constructJob tc s = some cmd)
    (hm : t ∈ startupArgs tc s) : t ∈ cmd := by
  obtain ⟨d, hd, rfl⟩ := constructJob_some tc s cmd h
  simp only [List.mem_append]
  tauto

/-- C1: for every LinkSpec with static = true, the emitted Command
contains none of -dynamic-linker, -Bshareable, and -export-dynamic
(regardless of rdynamicExport, shared, or any other flag), and,
whenever neither noStdlib nor noStartFiles is set, it contains the
static-executable entry object crt0T.o and the static C-initializer
object crti.o. -/
theorem staticLink_omits_dynamic_flags (tc : ToolchainConfig) (s : LinkSpec)
    (cmd : List String) (h : constructJob tc s = some cmd) (hst : s.static = true)
    (f₁ : flagFresh "-dynamic-linker" tc s) (f₂ : flagFresh "-Bshareable" tc s)
    (f₃ : flagFresh "-export-dynamic" tc s) :
    "-dynamic-linker" ∉ cmd ∧ "-Bshareable" ∉ cmd ∧ "-export-dynamic" ∉ cmd ∧
    (s.noStdlib = false → s.noStartFiles = false →
      tc.getFilePath "crt0T.o" ∈ cmd ∧ tc.getFilePath "crti.o" ∈ cmd) := by
  refine ⟨?_, ?_, ?_, ?_⟩
  · exact not_mem_cmd_of_fresh tc s cmd _ h f₁
      (not_mem_sysrootArgs tc _ (fun x => appendNe _ x _ 1 (by decide) (by decide)))
      (not_mem_pieArgs tc s _ (by decide)) (not_mem_stripArgs s _ (by decide))
      (by rw [modeArgs_static s hst]; decide) (by decide) (by decide)
      (fun p => appendNe _ p _ 1 (by decide) (by decide))
      (fun p => appendNe _ p _ 1 (by decide) (by decide)) (by decide)
  · exact not_mem_cmd_of_fresh tc s cmd _ h f₂
      (not_mem_sysrootArgs tc _ (fun x => appendNe _ x _ 1 (by decide) (by decide)))
      (not_mem_pieArgs tc s _ (by decide)) (not_mem_stripArgs s _ (by decide))
      (by rw [modeArgs_static s hst]; decide) (by decide) (by decide)
      (fun p => appendNe _ p _ 1 (by decide) (by decide))
      (fun p => appendNe _ p _ 1 (by decide) (by decide)) (by decide)
  · exact not_mem_cmd_of_fresh tc s cmd _ h f₃
      (not_mem_sysrootArgs tc _ (fun x => appendNe _ x _ 1 (by decide) (by decide)))
      (not_mem_pieArgs tc s _ (by decide)) (not_mem_stripArgs s _ (by decide))
      (by rw [modeArgs_static s hst]; decide) (by decide) (by decide)
      (fun p => appendNe _ p _ 1 (by decide) (by decide))
      (fun p => appendNe _ p _ 1 (by decide) (by decide)) (by decide)
  · intro h₁ h₂
    constructor
    · exact mem_constructJob_of_mem_startup tc s cmd _ h
        (by rw [startupArgs_static tc s hst h₁ h₂]; simp)
    · exact mem_constructJob_of_mem_startup tc s cmd _ h
        (by rw [startupArgs_static tc s hst h₁ h₂]; simp)

/-- Witness for C1 at a concrete static link job. -/
theorem staticLink_omits_dynamic_flags_witness :
    "-dynamic-linker" ∉ cmdC1 ∧ "-Bshareable" ∉ cmdC1 ∧ "-export-dynamic" ∉ cmdC1 ∧
    (sC1.noStdlib = false → sC1.noStartFiles = false →
      tcW.getFilePath "crt0T.o" ∈ cmdC1 ∧ tcW.getFilePath "crti.o" ∈ cmdC1) :=
  staticLink_omits_dynamic_flags tcW sC1 cmdC1 rfl rfl (by decide) (by decide) (by decide)

theorem isPIE_of_shared (tc : ToolchainConfig) (s : LinkSpec) (h : s.shared = true) :
    isPIE tc s = false := by
  unfold isPIE
  rw [h]
  simp

theorem pieArgs_empty (tc : ToolchainConfig) (s : LinkSpec) (h : isPIE tc s = false) :
    pieArgs tc s = [] := by
  unfold pieArgs
  rw [h]
  simp

theorem not_mem_modeArgs (s : LinkSpec) (t : String)
    (h : t ∉ (["-Bstatic", "-export-dynamic", "-Bshareable", "-dynamic-linker",
               "/sbin/ldyldo", "--enable-new-dtags"] : List String)) :
    t ∉ modeArgs s := by
  simp only [List.mem_cons, List.not_mem_nil, not_or] at h
  unfold modeArgs
  split_ifs <;> simp_all

/-- C2: for every LinkSpec with shared = true, the computed IsPIE value
is false regardless of the pie flag, so -pie is never emitted for a
shared link, and (under the mutual-exclusion invariant static = false)
the startup-object selection picks the shared/PIE entry object
crt0S.o, which reaches the command when startup files are not
suppressed. -/
theorem sharedLink_not_pie (tc : ToolchainConfig) (s : LinkSpec) (cmd : List String)
    (h : constructJob tc s = some cmd) (hsh : s.shared = true)
    (f : flagFresh "-pie" tc s) :
    isPIE tc s = false ∧ "-pie" ∉ cmd ∧
    (s.static = false → startupObject tc s = tc.getFilePath "crt0S.o") ∧
    (s.static = false → s.noStdlib = false → s.noStartFiles = false →
      tc.getFilePath "crt0S.o" ∈ cmd) := by
  have hpie := isPIE_of_shared tc s hsh
  refine ⟨hpie, ?_, ?_, ?_⟩
  · exact not_mem_cmd_of_fresh tc s cmd _ h f
      (not_mem_sysrootArgs tc _ (fun x => appendNe _ x _ 1 (by decide) (by decide)))
      (by rw [pieArgs_empty tc s hpie]; simp) (not_mem_stripArgs s _ (by decide))
      (not_mem_modeArgs s _ (by decide)) (by decide) (by decide)
      (fun p => appendNe _ p _ 1 (by decide) (by decide))
      (fun p => appendNe _ p _ 1 (by decide) (by decide)) (by decide)
  · intro hst
    unfold startupObject
    rw [hst, hsh]
    simp
  · intro hst h₁ h₂
    apply mem_constructJob_of_mem_startup tc s cmd _ h
    unfold startupArgs startupObject
    rw [hst, hsh, h₁, h₂]
    simp

/-- Witness for C2 at a concrete shared link job with pie requested. -/
theorem sharedLink_not_pie_witness :
    isPIE tcW sC2 = false ∧ "-pie" ∉ cmdC2 ∧
    (sC2.static = false → startupObject tcW sC2 = tcW.getFilePath "crt0S.o") ∧
    (sC2.static = false → sC2.noStdlib = false → sC2.noStartFiles = false →
      tcW.getFilePath "crt0S.o" ∈ cmdC2) :=
  sharedLink_not_pie tcW sC2 cmdC2 rfl rfl (by decide)

theorem modeArgs_decomp (s : LinkSpec) :
    ∃ front, modeArgs s =
      front ++ [if s.static then "-Bstatic" else "--enable-new-dtags"] := by
  cases hs : s.static with
  | true => exact ⟨[], by simp [modeArgs, hs]⟩
  | false =>
      refine ⟨(if s.rdynamicExport then ["-export-dynamic"] else [])
        ++ (if s.shared then ["-Bshareable"] else ["-dynamic-linker", "/sbin/ldyldo"]), ?_⟩
      simp [modeArgs, hs, List.append_assoc]

/-- C3: for every LinkSpec, the emitted Command contains -znorelro
exactly once and -o exactly once, and the -o pair (with the output
path) is immediately preceded by the last argument of the linking-mode
group: -Bstatic in static mode, --enable-new-dtags in dynamic mode. -/
theorem hardening_and_output_once (tc : ToolchainConfig) (s : LinkSpec)
    (cmd : List String) (h : constructJob tc s = some cmd)
    (f₁ : flagFresh "-znorelro" tc s) (f₂ : flagFresh "-o" tc s) :
    cmd.count "-znorelro" = 1 ∧ cmd.count "-o" = 1 ∧
    ∃ pre post, cmd = pre ++ [(if s.static then "-Bstatic" else "--enable-new-dtags"),
      "-o", s.outputPath] ++ post := by
  obtain ⟨d, hd, hcmd⟩ := constructJob_some tc s cmd h
  obtain ⟨finz, foutz, frtz, fTz, fSz, f0z, fiz, fltoz⟩ := f₁
  obtain ⟨fino, fouto, frto, fTo, fSo, f0o, fio, fltoo⟩ := f₂
  refine ⟨?_, ?_, ?_⟩
  · have z1 : hardeningArgs.count "-znorelro" = 1 := by decide
    have z2 : (sysrootArgs tc).count "-znorelro" = 0 :=
      List.count_eq_zero_of_not_mem (not_mem_sysrootArgs tc _
        (fun x => appendNe _ x _ 1 (by decide) (by decide)))
    have z3 : (pieArgs tc s).count "-znorelro" = 0 :=
      List.count_eq_zero_of_not_mem (not_mem_pieArgs tc s _ (by decide))
    have z4 : (stripArgs s).count "-znorelro" = 0 :=
      List.count_eq_zero_of_not_mem (not_mem_stripArgs s _ (by decide))
    have z5 : (modeArgs s).count "-znorelro" = 0 :=
      List.count_eq_zero_of_not_mem (not_mem_modeArgs s _ (by decide))
    have z6 : (outputArgs s).count "-znorelro" = 0 :=
      List.count_eq_zero_of_not_mem (not_mem_outputArgs s _ (by decide) foutz)
    have z7 : (startupArgs tc s).count "-znorelro" = 0 :=
      List.count_eq_zero_of_not_mem (not_mem_startupArgs tc s _ fTz fSz f0z fiz)
    have z8 : (userLibPathArgs s).count "-znorelro" = 0 :=
      List.count_eq_zero_of_not_mem (not_mem_map_of_ne _ _ _
        (fun p => appendNe _ p _ 1 (by decide) (by decide)))
    have z9 : (userUndefArgs s).count "-znorelro" = 0 :=
      List.count_eq_zero_of_not_mem (not_mem_map_of_ne _ _ _
        (fun p => appendNe _ p _ 1 (by decide) (by decide)))
    have z10 : (filePathLibArgs tc).count "-znorelro" = 0 :=
      List.count_eq_zero_of_not_mem (not_mem_map_of_ne _ _ _
        (fun p => appendNe _ p _ 1 (by decide) (by decide)))
    have z11 : (ltoArgs tc s).count "-znorelro" = 0 :=
      List.count_eq_zero_of_not_mem fltoz
    have z12 : s.inputs.count "-znorelro" = 0 := List.count_eq_zero_of_not_mem finz
    have z13 : d.count "-znorelro" = 0 :=
      List.count_eq_zero_of_not_mem (not_mem_defaultLibs tc s d _ hd frtz (by decide))
    rw [hcmd]
    simp only [List.count_append, z1, z2, z3, z4, z5, z6, z7, z8, z9, z10, z11, z12, z13]
  · have z1 : hardeningArgs.count "-o" = 0 := by decide
    have z2 : (sysrootArgs tc).count "-o" = 0 :=
      List.count_eq_zero_of_not_mem (not_mem_sysrootArgs tc _
        (fun x => appendNe _ x _ 1 (by decide) (by decide)))
    have z3 : (pieArgs tc s).count "-o" = 0 :=
      List.count_eq_zero_of_not_mem (not_mem_pieArgs tc s _ (by decide))
    have z4 : (stripArgs s).count "-o" = 0 :=
      List.count_eq_zero_of_not_mem (not_mem_stripArgs s _ (by decide))
    have z5 : (modeArgs s).count "-o" = 0 :=
      List.count_eq_zero_of_not_mem (not_mem_modeArgs s _ (by decide))
    have z6 : (outputArgs s).count "-o" = 1 := by
      unfold outputArgs
      rw [List.count_cons, List.count_singleton]
      simp [fouto]
    have z7 : (startupArgs tc s).count "-o" = 0 :=
      List.count_eq_zero_of_not_mem (not_mem_startupArgs tc s _ fTo fSo f0o fio)
    have z8 : (userLibPathArgs s).count "-o" = 0 :=
      List.count_eq_zero_of_not_mem (not_mem_map_of_ne _ _ _
        (fun p => appendNe _ p _ 1 (by decide) (by decide)))
    have z9 : (userUndefArgs s).count "-o" = 0 :=
      List.count_eq_zero_of_not_mem (not_mem_map_of_ne _ _ _
        (fun p => appendNe _ p _ 1 (by decide) (by decide)))
    have z10 : (filePathLibArgs tc).count "-o" = 0 :=
      List.count_eq_zero_of_not_mem (not_mem_map_of_ne _ _ _
        (fun p => appendNe _ p _ 1 (by decide) (by decide)))
    have z11 : (ltoArgs tc s).count "-o" = 0 :=
      List.count_eq_zero_of_not_mem fltoo
    have z12 : s.inputs.count "-o" = 0 := List.count_eq_zero_of_not_mem fino
    have z13 : d.count "-o" = 0 :=
      List.count_eq_zero_of_not_mem (not_mem_defaultLibs tc s d _ hd frto (by decide))
    rw [hcmd]
    simp only [List.count_append, z1, z2, z3, z4, z5, z6, z7, z8, z9, z10, z11, z12, z13]
  · obtain ⟨front, hf⟩ := modeArgs_decomp s
    refine ⟨hardeningArgs ++ sysrootArgs tc ++ pieArgs tc s ++ stripArgs s ++ front,
      startupArgs tc s ++ userLibPathArgs s ++ userUndefArgs s ++ filePathLibArgs tc
        ++ ltoArgs tc s ++ s.inputs ++ d, ?_⟩
    rw [hcmd, hf]
    simp [outputArgs, List.append_assoc]

/-- Witness for C3 at a concrete dynamic PIE link job. -/
theorem hardening_and_output_once_witness :
    cmdC3.count "-znorelro" = 1 ∧ cmdC3.count "-o" = 1 ∧
    ∃ pre post, cmdC3 = pre ++ [(if sC3.static then "-Bstatic" else "--enable-new-dtags"),
      "-o", sC3.outputPath] ++ post :=
  hardening_and_output_once tcW sC3 cmdC3 rfl (by decide) (by decide)

theorem count_scope (stdlib : List String) (only : Bool) (t : String)
    (hs : t ∉ stdlib)
    (h : t ∉ (["--as-needed", "-Bstatic", "-Bdynamic", "-lopenlibm"] : List String))
    (hpq : t = "--push-state" ∨ t = "--pop-state") :
    (cxxStdlibScope stdlib only).count t = 1 := by
  simp only [List.mem_cons, List.not_mem_nil, not_or] at h
  obtain ⟨n1, n2, n3, n4⟩ := h
  unfold cxxStdlibScope
  rcases hpq with rfl | rfl <;>
    cases only <;>
      simp [List.count_append, List.count_cons, List.count_eq_zero_of_not_mem hs,
        n1, n2, n3, n4]

/-- C4: for every LinkSpec linking default libraries with C++ and a C++
standard library, the Command contains, in order: --push-state,
--as-needed, then -Bstatic exactly when staticLibstdcxxOnly is set and
static is not, then the standard library arguments, then -Bdynamic
under that same condition, then -lopenlibm, then --pop-state; the
push/pop pair is balanced (each occurs exactly once) and the
static/dynamic linking mode after the scope equals the mode before it. -/
theorem cxx_stdlib_scope_balanced (tc : ToolchainConfig) (s : LinkSpec)
    (cmd : List String) (h : constructJob tc s = some cmd)
    (h₁ : s.noStdlib = false) (h₂ : s.noDefaultLibs = false)
    (h₃ : s.isCxx = true) (h₄ : s.shouldLinkCXXStdlib = true)
    (fp : flagFresh "--push-state" tc s) (fq : flagFresh "--pop-state" tc s) :
    ∃ stdlib pre post,
      addCXXStdlibLibArgs tc.cxxStdlibType s.static = some stdlib ∧
      cmd = pre ++ (["--push-state", "--as-needed"]
        ++ (if s.staticLibstdcxxOnly && !s.static then ["-Bstatic"] else [])
        ++ stdlib
        ++ (if s.staticLibstdcxxOnly && !s.static then ["-Bdynamic"] else [])
        ++ ["-lopenlibm", "--pop-state"]) ++ post ∧
      cmd.count "--push-state" = 1 ∧ cmd.count "--pop-state" = 1 ∧
      linkModeAfter s.static (["--push-state", "--as-needed"]
        ++ (if s.staticLibstdcxxOnly && !s.static then ["-Bstatic"] else [])
        ++ stdlib
        ++ (if s.staticLibstdcxxOnly && !s.static then ["-Bdynamic"] else [])
        ++ ["-lopenlibm", "--pop-state"]) = s.static := by
  obtain ⟨d, hd, hcmd⟩ := constructJob_some tc s cmd h
  have hn : (s.noStdlib || s.noDefaultLibs) = false := by rw [h₁, h₂]; rfl
  have hx : (s.isCxx && s.shouldLinkCXXStdlib) = true := by rw [h₃, h₄]; rfl
  obtain ⟨c, hc, hdval⟩ := defaultLibsOpt_full tc s d hd hn
  obtain ⟨stdlib, ha, hcval⟩ := cxxPartOpt_cxx tc s c hc hx
  obtain ⟨-, hstdlib⟩ := addCXXStdlibLibArgs_some _ _ _ ha
  obtain ⟨finp, foutp, frtp, fTp, fSp, f0p, fip, fltop⟩ := fp
  obtain ⟨finq, foutq, frtq, fTq, fSq, f0q, fiq, fltoq⟩ := fq
  have hscope : c = ["--push-state", "--as-needed"]
      ++ (if s.staticLibstdcxxOnly && !s.static then ["-Bstatic"] else [])
      ++ stdlib
      ++ (if s.staticLibstdcxxOnly && !s.static then ["-Bdynamic"] else [])
      ++ ["-lopenlibm", "--pop-state"] := by
    rw [hcval]
    unfold cxxStdlibScope
    simp [List.append_assoc]
  have hpush_stdlib : "--push-state" ∉ stdlib := by
    rw [hstdlib]; cases hs : s.static <;> decide
  have hpop_stdlib : "--pop-state" ∉ stdlib := by
    rw [hstdlib]; cases hs : s.static <;> decide
  have countp : ∀ t, t = "--push-state" ∨ t = "--pop-state" → t ∉ stdlib →
      t ∉ s.inputs → s.outputPath ≠ t → t ∉ tc.runtimeLibs →
      tc.getFilePath "crt0T.o" ≠ t → tc.getFilePath "crt0S.o" ≠ t →
      tc.getFilePath "crt0.o" ≠ t → tc.getFilePath "crti.o" ≠ t →
      t ∉ ltoArgs tc s → cmd.count t = 1 := by
    intro t hpq hstd fin fout frt fT fS f0 fi flto
    have z1 : hardeningArgs.count t = 0 := by
      apply List.count_eq_zero_of_not_mem
      rcases hpq with rfl | rfl <;> decide
    have z2 : (sysrootArgs tc).count t = 0 := by
      apply List.count_eq_zero_of_not_mem
      apply not_mem_sysrootArgs
      rcases hpq with rfl | rfl <;>
        exact fun x => appendNe _ x _ 2 (by decide) (by decide)
    have z3 : (pieArgs tc s).count t = 0 := by
      apply List.count_eq_zero_of_not_mem
      apply not_mem_pieArgs
      rcases hpq with rfl | rfl <;> decide
    have z4 : (stripArgs s).count t = 0 := by
      apply List.count_eq_zero_of_not_mem
      apply not_mem_stripArgs
      rcases hpq with rfl | rfl <;> decide
    have z5 : (modeArgs s).count t = 0 := by
      apply List.count_eq_zero_of_not_mem
      apply not_mem_modeArgs
      rcases hpq with rfl | rfl <;> decide
    have z6 : (outputArgs s).count t = 0 := by
      apply List.count_eq_zero_of_not_mem
      apply not_mem_outputArgs _ _ _ fout
      rcases hpq with rfl | rfl <;> decide
    have z7 : (startupArgs tc s).count t = 0 :=
      List.count_eq_zero_of_not_mem (not_mem_startupArgs tc s t fT fS f0 fi)
    have z8 : (userLibPathArgs s).count t = 0 := by
      apply List.count_eq_zero_of_not_mem
      apply not_mem_map_of_ne
      rcases hpq with rfl | rfl <;>
        exact fun p => appendNe _ p _ 1 (by decide) (by decide)
    have z9 : (userUndefArgs s).count t = 0 := by
      apply List.count_eq_zero_of_not_mem
      apply not_mem_map_of_ne
      rcases hpq with rfl | rfl <;>
        exact fun p => appendNe _ p _ 1 (by decide) (by decide)
    have z10 : (filePathLibArgs tc).count t = 0 := by
      apply List.count_eq_zero_of_not_mem
      apply not_mem_map_of_ne
      rcases hpq with rfl | rfl <;>
        exact fun p => appendNe _ p _ 1 (by decide) (by decide)
    have z11 : (ltoArgs tc s).count t = 0 := List.count_eq_zero_of_not_mem flto
    have z12 : s.inputs.count t = 0 := List.count_eq_zero_of_not_mem fin
    have z13 : d.count t = 1 := by
      rw [hdval, hcval]
      have c1 : (if s.static = true then ["-Bstatic"] else []).count t = 0 := by
        apply List.count_eq_zero_of_not_mem
        apply not_mem_if_list
        · rcases hpq with rfl | rfl <;> decide
        · simp
      have c2 : (cxxStdlibScope stdlib (s.staticLibstdcxxOnly && !s.static)).count t = 1 := by
        apply count_scope _ _ _ hstd _ hpq
        rcases hpq with rfl | rfl <;> decide
      have c3 : tc.runtimeLibs.count t = 0 := List.count_eq_zero_of_not_mem frt
      have c4 : (if s.noLibc = true then [] else ["-lc"]).count t = 0 := by
        apply List.count_eq_zero_of_not_mem
        apply not_mem_if_list
        · simp
        · rcases hpq with rfl | rfl <;> decide
      simp only [List.count_append, c1, c2, c3, c4]
    rw [hcmd]
    simp only [List.count_append, z1, z2, z3, z4, z5, z6, z7, z8, z9, z10, z11, z12, z13]
  refine ⟨stdlib,
    hardeningArgs ++ sysrootArgs tc ++ pieArgs tc s ++ stripArgs s ++ modeArgs s
      ++ outputArgs s ++ startupArgs tc s ++ userLibPathArgs s ++ userUndefArgs s
      ++ filePathLibArgs tc ++ ltoArgs tc s ++ s.inputs
      ++ (if s.static = true then ["-Bstatic"] else []),
    tc.runtimeLibs ++ (if s.noLibc = true then [] else ["-lc"]), ha, ?_, ?_, ?_, ?_⟩
  · rw [hcmd, hdval, hscope]
    simp [List.append_assoc]
  · exact countp _ (Or.inl rfl) hpush_stdlib finp foutp frtp fTp fSp f0p fip fltop
  · exact countp _ (Or.inr rfl) hpop_stdlib finq foutq frtq fTq fSq f0q fiq fltoq
  · rw [hstdlib]
    cases hs : s.static <;> cases ho : s.staticLibstdcxxOnly <;>
      simp [linkModeAfter, hs, ho]

/-- Witness for C4 at a concrete dynamic C++ link job that links only
the standard library statically. -/
theorem cxx_stdlib_scope_balanced_witness :
    ∃ stdlib pre post,
      addCXXStdlibLibArgs tcW.cxxStdlibType sC4.static = some stdlib ∧
      cmdC4 = pre ++ (["--push-state", "--as-needed"]
        ++ (if sC4.staticLibstdcxxOnly && !sC4.static then ["-Bstatic"] else [])
        ++ stdlib
        ++ (if sC4.staticLibstdcxxOnly && !sC4.static then ["-Bdynamic"] else [])
        ++ ["-lopenlibm", "--pop-state"]) ++ post ∧
      cmdC4.count "--push-state" = 1 ∧ cmdC4.count "--pop-state" = 1 ∧
      linkModeAfter sC4.static (["--push-state", "--as-needed"]
        ++ (if sC4.staticLibstdcxxOnly && !sC4.static then ["-Bstatic"] else [])
        ++ stdlib
        ++ (if sC4.staticLibstdcxxOnly && !sC4.static then ["-Bdynamic"] else [])
        ++ ["-lopenlibm", "--pop-state"]) = sC4.static :=
  cxx_stdlib_scope_balanced tcW sC4 cmdC4 rfl rfl rfl rfl rfl (by decide) (by decide)

/-- C5: for every LinkSpec, the emitted Command contains all
user-supplied -L library search paths in their original order,
followed by all user-supplied -u forced-undefined-symbol directives in
their original order, followed by the toolchain's resolved library
search paths (the sysroot System and Local tiers). -/
theorem user_paths_before_toolchain_paths (tc : ToolchainConfig) (s : LinkSpec)
    (cmd : List String) (h : constructJob tc s = some cmd) :
    (∃ pre post, cmd = pre ++ s.extraLibraryPaths.map (fun p => "-L" ++ p)
      ++ s.extraUndefinedSymbols.map (fun u => "-u" ++ u)
      ++ (ToolchainConfig.filePaths tc).map (fun p => "-L" ++ p) ++ post) ∧
    (tc.sysroot ≠ "" → ToolchainConfig.filePaths tc =
      [tc.sysroot ++ "/System/Libraries", tc.sysroot ++ "/Local/Libraries"]) := by
  obtain ⟨d, hd, hcmd⟩ := constructJob_some tc s cmd h
  constructor
  · refine ⟨hardeningArgs ++ sysrootArgs tc ++ pieArgs tc s ++ stripArgs s ++ modeArgs s
      ++ outputArgs s ++ startupArgs tc s, ltoArgs tc s ++ s.inputs ++ d, ?_⟩
    rw [hcmd]
    simp [userLibPathArgs, userUndefArgs, filePathLibArgs, List.append_assoc]
  · intro hs
    unfold ToolchainConfig.filePaths
    simp [hs]

/-- Witness for C5 at a concrete job with two user search paths and two
forced-undefined symbols. -/
theorem user_paths_before_toolchain_paths_witness :
    (∃ pre post, cmdC5 = pre ++ sC5.extraLibraryPaths.map (fun p => "-L" ++ p)
      ++ sC5.extraUndefinedSymbols.map (fun u => "-u" ++ u)
      ++ (ToolchainConfig.filePaths tcW).map (fun p => "-L" ++ p) ++ post) ∧
    (tcW.sysroot ≠ "" → ToolchainConfig.filePaths tcW =
      [tcW.sysroot ++ "/System/Libraries", tcW.sysroot ++ "/Local/Libraries"]) :=
  user_paths_before_toolchain_paths tcW sC5 cmdC5 rfl

/-- C6 counterexample: at a concrete job with one user -L path and a
configured sysroot, the user path appears in the Command strictly
before the toolchain's System-tier path, refuting that the
construction-time tiers are prepended to (appear before) the per-job
user-supplied paths. -/
theorem toolchain_paths_not_before_user_paths :
    cmdC6.indexOf "-Lu" < cmdC6.indexOf "-L/sr/System/Libraries" ∧
    "-Lu" ∈ cmdC6 ∧ "-L/sr/System/Libraries" ∈ cmdC6 ∧
    "-L/sr/Local/Libraries" ∈ cmdC6 := by decide

/-- C6 (amended): the toolchain's two-tier library search paths (system
tier before local tier), established once at ToolchainConfig
construction, appear in the emitted Command after (are appended to) the
per-job user-supplied -L library search paths. -/
theorem toolchain_tiers_follow_user_paths (tc : ToolchainConfig) (s : LinkSpec)
    (cmd : List String) (h : constructJob tc s = some cmd) (hs : tc.sysroot ≠ "") :
    ∃ pre mid post, cmd = pre ++ s.extraLibraryPaths.map (fun p => "-L" ++ p)
      ++ mid ++ ["-L" ++ (tc.sysroot ++ "/System/Libraries"),
                 "-L" ++ (tc.sysroot ++ "/Local/Libraries")] ++ post := by
  obtain ⟨d, hd, hcmd⟩ := constructJob_some tc s cmd h
  refine ⟨hardeningArgs ++ sysrootArgs tc ++ pieArgs tc s ++ stripArgs s ++ modeArgs s
    ++ outputArgs s ++ startupArgs tc s, userUndefArgs s,
    ltoArgs tc s ++ s.inputs ++ d, ?_⟩
  rw [hcmd]
  have hfp : filePathLibArgs tc =
      ["-L" ++ (tc.sysroot ++ "/System/Libraries"),
       "-L" ++ (tc.sysroot ++ "/Local/Libraries")] := by
    unfold filePathLibArgs ToolchainConfig.filePaths
    simp [hs]
  rw [hfp]
  simp [userLibPathArgs, List.append_assoc]

/-- Witness for the amended C6 at a concrete job. -/
theorem toolchain_tiers_follow_user_paths_witness :
    ∃ pre mid post, cmdC6 = pre ++ sC6.extraLibraryPaths.map (fun p => "-L" ++ p)
      ++ mid ++ ["-L" ++ (tcW.sysroot ++ "/System/Libraries"),
                 "-L" ++ (tcW.sysroot ++ "/Local/Libraries")] ++ post :=
  toolchain_tiers_follow_user_paths tcW sC6 cmdC6 rfl (by decide)

/-- C7 counterexample: with the suppress-all-system-includes flag
(nostdinc) set and noBuiltinInc unset, AddClangSystemIncludeArgs
resolves no directories at all, so the built-in resource include
directory is not the first entry, contrary to the claim quantified over
every flag setting. -/
theorem builtin_include_omitted_under_nostdinc :
    addClangSystemIncludeArgs tcW true false false = [] ∧
    ("/res" ++ "/include") ∉ addClangSystemIncludeArgs tcW true false false := by
  decide

/-- C7 (amended): provided the suppress-all-system-includes flag
(nostdinc) is not set, the resolved system include directories satisfy:
the built-in resource include directory is omitted when noBuiltinInc is
set and otherwise is the first entry; when noStdlibInc is set nothing
is added after the built-in entry; otherwise, with a configured
sysroot, exactly the System/Includes then Local/Includes tiers are
appended in that order, and with no sysroot no sysroot-relative entries
are added. -/
theorem system_include_resolution (tc : ToolchainConfig)
    (nobuiltininc nostdlibinc : Bool) :
    (nobuiltininc = false →
      (addClangSystemIncludeArgs tc false nobuiltininc nostdlibinc).head? =
        some (tc.resourceDir ++ "/include")) ∧
    (nostdlibinc = true →
      addClangSystemIncludeArgs tc false nobuiltininc nostdlibinc =
        (if nobuiltininc then [] else [tc.resourceDir ++ "/include"])) ∧
    (nostdlibinc = false → tc.sysroot ≠ "" →
      addClangSystemIncludeArgs tc false nobuiltininc nostdlibinc =
        (if nobuiltininc then [] else [tc.resourceDir ++ "/include"])
        ++ [tc.sysroot ++ "/System/Includes", tc.sysroot ++ "/Local/Includes"]) ∧
    (nostdlibinc = false → tc.sysroot = "" →
      addClangSystemIncludeArgs tc false nobuiltininc nostdlibinc =
        (if nobuiltininc then [] else [tc.resourceDir ++ "/include"])) := by
  unfold addClangSystemIncludeArgs
  refine ⟨?_, ?_, ?_, ?_⟩
  · intro hb
    rw [hb]
    cases hl : nostdlibinc <;> by_cases hs : tc.sysroot = "" <;> simp [hs]
  · intro hl
    rw [hl]
    cases hb : nobuiltininc <;> simp
  · intro hl hs
    rw [hl]
    cases hb : nobuiltininc <;> simp [hs]
  · intro hl hs
    rw [hl]
    cases hb : nobuiltininc <;> simp [hs]

/-- Witness for the amended C7 at a concrete configuration with a
sysroot and both flags unset. -/
theorem system_include_resolution_witness :
    (addClangSystemIncludeArgs tcW false false false).head? =
      some (tcW.resourceDir ++ "/include") ∧
    addClangSystemIncludeArgs tcW false false false =
      (if false then [] else [tcW.resourceDir ++ "/include"])
      ++ [tcW.sysroot ++ "/System/Includes", tcW.sysroot ++ "/Local/Includes"] :=
  ⟨(system_include_resolution tcW false false).1 rfl,
   (system_include_resolution tcW false false).2.2.1 rfl (by decide)⟩

/-- C8: the runtime-library-type selector always returns compiler-rt;
it emits a diagnostic exactly when a name other than compiler-rt is
supplied, the diagnostic is the invalid-runtime-library-name report,
and it never fails or returns any other kind. -/
theorem runtime_lib_type_always_compiler_rt (rtlibArg : Option String) :
    (getRuntimeLibType rtlibArg).1 = RuntimeLibType.compilerRT ∧
    ((getRuntimeLibType rtlibArg).2 ≠ [] ↔
      ∃ v, rtlibArg = some v ∧ v ≠ "compiler-rt") ∧
    ((getRuntimeLibType rtlibArg).2 = [] ∨
      ∃ v, rtlibArg = some v ∧
        (getRuntimeLibType rtlibArg).2 = ["invalid runtime library name: " ++ v]) := by
  cases rtlibArg with
  | none => simp [getRuntimeLibType]
  | some v =>
      by_cases hv : v = "compiler-rt" <;> simp [getRuntimeLibType, hv]

/-- C9: whenever LTO is enabled, at least one input is a fatal
precondition: with zero inputs synthesis aborts producing no Command;
with a first input present, the LTO options derived from the mode
(thin vs. full), anchored on that first input, are emitted. -/
theorem lto_requires_input (tc : ToolchainConfig) (s : LinkSpec)
    (h : s.ltoMode ≠ LTOMode.off) :
    (s.inputs = [] → constructJob tc s = none) ∧
    (∀ i rest cmd, s.inputs = i :: rest → constructJob tc s = some cmd →
      ∃ pre post, cmd = pre ++ tc.ltoOptions s.ltoMode.isThin i ++ post) := by
  constructor
  · intro hi
    have hlto : ltoArgsOpt tc s = none := by
      unfold ltoArgsOpt
      rw [hi]
      cases hm : s.ltoMode with
      | off => exact absurd hm h
      | full => rfl
      | thin => rfl
    unfold constructJob
    rw [hlto]
  · intro i rest cmd hi hc
    obtain ⟨d, hd, hcmd⟩ := constructJob_some tc s cmd hc
    have hlto : ltoArgs tc s = tc.ltoOptions s.ltoMode.isThin i := by
      unfold ltoArgs
      rw [hi]
      cases hm : s.ltoMode with
      | off => exact absurd hm h
      | full => rfl
      | thin => rfl
    refine ⟨hardeningArgs ++ sysrootArgs tc ++ pieArgs tc s ++ stripArgs s ++ modeArgs s
      ++ outputArgs s ++ startupArgs tc s ++ userLibPathArgs s ++ userUndefArgs s
      ++ filePathLibArgs tc, s.inputs ++ d, ?_⟩
    rw [hcmd, hlto]
    simp [List.append_assoc]

/-- Witness for C9: a ThinLTO job with no inputs aborts, and one with a
single input emits the LTO options anchored on it. -/
theorem lto_requires_input_witness :
    constructJob tcW sC9e = none ∧
    (∃ pre post, cmdC9 = pre ++ tcW.ltoOptions sC9n.ltoMode.isThin "a.o" ++ post) :=
  ⟨(lto_requires_input tcW sC9e (by decide)).1 rfl,
   (lto_requires_input tcW sC9n (by decide)).2 "a.o" [] cmdC9 rfl rfl⟩

theorem mem_constructJob_of_mem_defaults (tc : ToolchainConfig) (s : LinkSpec)
    (cmd : List String) (t : String) (d : List String)
    (h : constructJob tc s = some cmd) (hd : defaultLibsOpt tc s = some d)
    (hm : t ∈ d) : t ∈ cmd := by
  obtain ⟨d2, hd2, rfl⟩ := constructJob_some tc s cmd h
  rw [hd2] at hd
  injection hd with e
  subst e
  simp only [List.mem_append]
  tauto

/-- C10: whenever the C++ standard-library argument emitter runs with
libc++ selected, it appends exactly -lc++abi then -lc++ in that order,
and -lunwind immediately after if and only if static is not set: a
fully static C++ link receives no libunwind while every non-static C++
link that links the standard library does. -/
theorem cxx_stdlib_libs_and_unwind (tc : ToolchainConfig) (s : LinkSpec)
    (cmd : List String) (h : constructJob tc s = some cmd)
    (h₁ : s.noStdlib = false) (h₂ : s.noDefaultLibs = false) (h₃ : s.isCxx = true)
    (h₄ : s.shouldLinkCXXStdlib = true) (f : flagFresh "-lunwind" tc s) :
    (∃ l, addCXXStdlibLibArgs tc.cxxStdlibType s.static = some l ∧
      l = ["-lc++abi", "-lc++"] ++ (if s.static then [] else ["-lunwind"])) ∧
    (s.static = false → "-lunwind" ∈ cmd) ∧
    (s.static = true → "-lunwind" ∉ cmd) := by
  have hn : (s.noStdlib || s.noDefaultLibs) = false := by rw [h₁, h₂]; rfl
  have hx : (s.isCxx && s.shouldLinkCXXStdlib) = true := by rw [h₃, h₄]; rfl
  obtain ⟨d, hd, hcmd⟩ := constructJob_some tc s cmd h
  obtain ⟨c, hc, hdval⟩ := defaultLibsOpt_full tc s d hd hn
  obtain ⟨stdlib, ha, hcval⟩ := cxxPartOpt_cxx tc s c hc hx
  obtain ⟨-, hstdlib⟩ := addCXXStdlibLibArgs_some _ _ _ ha
  obtain ⟨fin, fout, frt, fT, fS, f0, fi, flto⟩ := f
  refine ⟨⟨stdlib, ha, hstdlib⟩, ?_, ?_⟩
  · intro hst
    apply mem_constructJob_of_mem_defaults tc s cmd _ d h hd
    rw [hdval, hcval, hstdlib, hst]
    simp [cxxStdlibScope]
  · intro hst
    have hdnm : "-lunwind" ∉ d := by
      rw [hdval, hcval, hstdlib, hst]
      simp only [cxxStdlibScope, Bool.not_true, Bool.and_false, List.mem_append,
        List.mem_cons, List.not_mem_nil, not_or, if_true, if_false]
      split_ifs <;> simp_all
    exact not_mem_constructJob tc s cmd _ h (by decide)
      (not_mem_sysrootArgs tc _ (fun x => appendNe _ x _ 1 (by decide) (by decide)))
      (not_mem_pieArgs tc s _ (by decide)) (not_mem_stripArgs s _ (by decide))
      (by rw [modeArgs_static s hst]; decide)
      (not_mem_outputArgs s _ (by decide) fout)
      (not_mem_startupArgs tc s _ fT fS f0 fi)
      (not_mem_map_of_ne _ _ _ (fun p => appendNe _ p _ 1 (by decide) (by decide)))
      (not_mem_map_of_ne _ _ _ (fun p => appendNe _ p _ 1 (by decide) (by decide)))
      (not_mem_map_of_ne _ _ _ (fun p => appendNe _ p _ 1 (by decide) (by decide)))
      flto fin
      (fun d2 hd2 => by rw [hd] at hd2; injection hd2 with e; rw [← e]; exact hdnm)

/-- Witness for C10 at a concrete non-static C++ link job. -/
theorem cxx_stdlib_libs_and_unwind_witness :
    (∃ l, addCXXStdlibLibArgs tcW.cxxStdlibType sC10.static = some l ∧
      l = ["-lc++abi", "-lc++"] ++ (if sC10.static then [] else ["-lunwind"])) ∧
    (sC10.static = false → "-lunwind" ∈ cmdC10) ∧
    (sC10.static = true → "-lunwind" ∉ cmdC10) :=
  cxx_stdlib_libs_and_unwind tcW sC10 cmdC10 rfl rfl rfl rfl rfl (by decide)

end KushToolchain
